import Mathlib

/-!
Verification development for the TAP-protocol privilege-auth boilerplate
(`src/privilege-auth.mjs`): a shallow embedding of the four op builders
(`signAuth`, `signMint`, `signDmtMint`, `signVerification`), their canonical
byte strings, the `sha256` helper, and the hex / decimal / JSON renderings the
builders use.

Modelling conventions, stated once:
* JavaScript byte buffers are `List Nat` with entries below 256; machine
  integers are `Nat`.
* An ECMAScript number is modelled by its `ToString` decimal rendering (a
  `String`), since the source only ever concatenates or JSON-serialises its
  numeric inputs.  All example numbers appearing in the claims
  (1000, 190002, 9007199254740991, 9007199254740992, 0.123) are exactly
  representable doubles whose rendering is the literal shown.
* The secp256k1 primitives come from the external `@noble/secp256k1`
  package, which is not part of this repository; they are modelled as an
  explicit parameter (`EcEngine`) whose documented behaviour — a signature
  produced over a digest verifies against the signer's public key and
  recovers that key — is the predicate `EcSound`.
* `JSON.parse(JSON.stringify(x))` is the identity on every value the
  builders construct (strings and JSON-safe objects with canonical number
  renderings), so the `test_proto` copy is modelled as the value itself.
-/

set_option maxRecDepth 100000

/-! ## Bytes, hex, and decimal renderings -/

/-- Big-endian interpretation of a byte list, as `@noble/secp256k1` reads a
32-byte private key. -/
def bytesToNat (bs : List Nat) : Nat := bs.foldl (fun acc b => acc * 256 + b) 0

/-- Lowercase hex digit for a value below 16. -/
def hexDigitChar (d : Nat) : Char :=
  if d < 10 then Char.ofNat (48 + d) else Char.ofNat (87 + d)

/-- Lowercase hex rendering of a byte list, as `Buffer.prototype.toString('hex')`
produces it: two lowercase hex digits per byte, in order. -/
def hexEncode (bs : List Nat) : String :=
  String.mk (bs.foldr (fun b acc => hexDigitChar (b / 16 % 16) :: hexDigitChar (b % 16) :: acc) [])

/-- Value of one hex digit character, `none` for a non-hex character. -/
def hexVal (c : Char) : Option Nat :=
  if 48 ≤ c.toNat ∧ c.toNat ≤ 57 then some (c.toNat - 48)
  else if 97 ≤ c.toNat ∧ c.toNat ≤ 102 then some (c.toNat - 87)
  else if 65 ≤ c.toNat ∧ c.toNat ≤ 70 then some (c.toNat - 55)
  else none

/-- Core of `Buffer.from(s, 'hex')`: consume hex-digit pairs, stopping at the
first invalid pair or odd trailing character. -/
def hexDecodeAux : List Char → List Nat
  | c1 :: c2 :: rest =>
    match hexVal c1, hexVal c2 with
    | some h, some l => (16 * h + l) :: hexDecodeAux rest
    | _, _ => []
  | _ => []

/-- `Buffer.from(s, 'hex')` as the source applies it to key material. -/
def hexDecode (s : String) : List Nat := hexDecodeAux s.data

/-- Little-endian base-10 digits of `n` (most significant last), driven by a
fuel argument so that the definition is structural and kernel-reducible;
`n` itself is always sufficient fuel. -/
def digitsRev : Nat → Nat → List Nat
  | 0, _ => []
  | fuel + 1, n => if n = 0 then [] else n % 10 :: digitsRev fuel (n / 10)

/-- Decimal rendering of a natural number, as `BigInt.prototype.toString` and
ECMAScript number `ToString` render the non-negative integers the source
feeds them. -/
def natDec (n : Nat) : String :=
  if n = 0 then "0" else String.mk ((digitsRev n n).reverse.map (fun d => Char.ofNat (48 + d)))

/-- Decimal parsing as `BigInt(string)` / `parseInt(string)` act on the
all-digit strings the source stores: fold the digits left to right. -/
def parseDec (s : String) : Nat := s.data.foldl (fun acc c => acc * 10 + (c.toNat - 48)) 0

/-- Big-endian bytes of `n` (empty for 0), used by the concrete engine
instances below. -/
def natToBytes (n : Nat) : List Nat := (digitsRevBase n n).reverse
where
  /-- Little-endian base-256 digits with fuel. -/
  digitsRevBase : Nat → Nat → List Nat
    | 0, _ => []
    | fuel + 1, n => if n = 0 then [] else n % 256 :: digitsRevBase fuel (n / 256)

/-- ASCII lowercasing of one character, the fragment of
`String.prototype.toLowerCase` exercised by this repository's tickers. -/
def asciiLowerChar (c : Char) : Char :=
  if 65 ≤ c.toNat ∧ c.toNat ≤ 90 then Char.ofNat (c.toNat + 32) else c

/-- ASCII lowercasing of a string (`ticker.toLowerCase()` in `signDmtMint`). -/
def asciiLower (s : String) : String := String.mk (s.data.map asciiLowerChar)

/-- UTF-8 bytes of one character, as Node's `hash.update(string)` encodes its
input. -/
def utf8Char (c : Char) : List Nat :=
  let n := c.toNat
  if n < 128 then [n]
  else if n < 2048 then [192 + n / 64, 128 + n % 64]
  else if n < 65536 then [224 + n / 4096, 128 + n / 64 % 64, 128 + n % 64]
  else [240 + n / 262144, 128 + n / 4096 % 64, 128 + n / 64 % 64, 128 + n % 64]

/-- UTF-8 encoding of a string. -/
def utf8Encode (s : String) : List Nat := s.data.foldr (fun c acc => utf8Char c ++ acc) []

/-! ## SHA-256 (FIPS 180-4), the algorithm behind `createHash('sha256')` -/

/-- Truncation to a 32-bit word. -/
def wmask (x : Nat) : Nat := x % 4294967296

/-- Right rotation of a 32-bit word (the argument must already be below
`2 ^ 32`, which every word in the computation is). -/
def rotr (n x : Nat) : Nat := wmask (x / 2 ^ n + x * 2 ^ (32 - n))

/-- Logical right shift. -/
def shr (n x : Nat) : Nat := x / 2 ^ n

/-- Bitwise complement within 32 bits. -/
def wnot (x : Nat) : Nat := 4294967295 - wmask x

/-- SHA-256 `Ch` function. -/
def shaCh (x y z : Nat) : Nat := (x &&& y) ^^^ (wnot x &&& z)

/-- SHA-256 `Maj` function. -/
def shaMaj (x y z : Nat) : Nat := (x &&& y) ^^^ (x &&& z) ^^^ (y &&& z)

/-- SHA-256 `Σ0`. -/
def bigSigma0 (x : Nat) : Nat := rotr 2 x ^^^ rotr 13 x ^^^ rotr 22 x

/-- SHA-256 `Σ1`. -/
def bigSigma1 (x : Nat) : Nat := rotr 6 x ^^^ rotr 11 x ^^^ rotr 25 x

/-- SHA-256 `σ0`. -/
def smallSigma0 (x : Nat) : Nat := rotr 7 x ^^^ rotr 18 x ^^^ shr 3 x

/-- SHA-256 `σ1`. -/
def smallSigma1 (x : Nat) : Nat := rotr 17 x ^^^ rotr 19 x ^^^ shr 10 x

/-- The 64 SHA-256 round constants (FIPS 180-4 §4.2.2, written in decimal). -/
def K256 : List Nat :=
  [1116352408, 1899447441, 3049323471, 3921009573, 961987163,
   1508970993, 2453635748, 2870763221, 3624381080, 310598401,
   607225278, 1426881987, 1925078388, 2162078206, 2614888103,
   3248222580, 3835390401, 4022224774, 264347078, 604807628,
   770255983, 1249150122, 1555081692, 1996064986, 2554220882,
   2821834349, 2952996808, 3210313671, 3336571891, 3584528711,
   113926993, 338241895, 666307205, 773529912, 1294757372,
   1396182291, 1695183700, 1986661051, 2177026350, 2456956037,
   2730485921, 2820302411, 3259730800, 3345764771, 3516065817,
   3600352804, 4094571909, 275423344, 430227734, 506948616,
   659060556, 883997877, 958139571, 1322822218, 1537002063,
   1747873779, 1955562222, 2024104815, 2227730452, 2361852424,
   2428436474, 2756734187, 3204031479, 3329325298]

/-- Working state of the compression function. -/
structure Hash8 where
  a : Nat
  b : Nat
  c : Nat
  d : Nat
  e : Nat
  f : Nat
  g : Nat
  h : Nat

/-- Initial SHA-256 hash value (FIPS 180-4 §5.3.3, written in decimal). -/
def initH : Hash8 :=
  { a := 1779033703, b := 3144134277, c := 1013904242, d := 2773480762,
    e := 1359893119, f := 2600822924, g := 528734635, h := 1541459225 }

/-- Pack bytes into big-endian 32-bit words (four bytes per word). -/
def wordsOf : List Nat → List Nat
  | b0 :: b1 :: b2 :: b3 :: rest => (((b0 * 256 + b1) * 256 + b2) * 256 + b3) :: wordsOf rest
  | _ => []

/-- Extend the 16 block words to 64 schedule words; the accumulator holds the
words produced so far, newest first. -/
def scheduleAux : Nat → List Nat → List Nat
  | 0, acc => acc
  | fuel + 1, acc =>
    let w2 := acc.getD 1 0
    let w7 := acc.getD 6 0
    let w15 := acc.getD 14 0
    let w16 := acc.getD 15 0
    scheduleAux fuel (wmask (smallSigma1 w2 + w7 + smallSigma0 w15 + w16) :: acc)

/-- The 64 message-schedule words of one 64-byte block. -/
def schedule (block : List Nat) : List Nat := (scheduleAux 48 (wordsOf block).reverse).reverse

/-- One SHA-256 round, consuming a (round constant, schedule word) pair. -/
def compressStep (st : Hash8) (kw : Nat × Nat) : Hash8 :=
  let t1 := wmask (st.h + bigSigma1 st.e + shaCh st.e st.f st.g + kw.1 + kw.2)
  let t2 := wmask (bigSigma0 st.a + shaMaj st.a st.b st.c)
  { a := wmask (t1 + t2), b := st.a, c := st.b, d := st.c,
    e := wmask (st.d + t1), f := st.e, g := st.f, h := st.g }

/-- Compress one 64-byte block into the running hash value. -/
def compressBlock (st : Hash8) (block : List Nat) : Hash8 :=
  let t := (K256.zip (schedule block)).foldl compressStep st
  { a := wmask (st.a + t.a), b := wmask (st.b + t.b), c := wmask (st.c + t.c),
    d := wmask (st.d + t.d), e := wmask (st.e + t.e), f := wmask (st.f + t.f),
    g := wmask (st.g + t.g), h := wmask (st.h + t.h) }

/-- Big-endian 8-byte rendering of the bit length, for the padding tail. -/
def lenBytes64 (n : Nat) : List Nat :=
  [n / 2 ^ 56 % 256, n / 2 ^ 48 % 256, n / 2 ^ 40 % 256, n / 2 ^ 32 % 256,
   n / 2 ^ 24 % 256, n / 2 ^ 16 % 256, n / 2 ^ 8 % 256, n % 256]

/-- SHA-256 message padding: a `0x80` byte, zeros to 56 mod 64, then the
64-bit big-endian bit length. -/
def shaPad (msg : List Nat) : List Nat :=
  msg ++ [128] ++ List.replicate ((119 - msg.length % 64) % 64) 0 ++ lenBytes64 (8 * msg.length)

/-- Split a byte list into 64-byte chunks (fuel-driven; the list length is
always sufficient fuel). -/
def chunks64 : Nat → List Nat → List (List Nat)
  | 0, _ => []
  | _, [] => []
  | fuel + 1, bs => bs.take 64 :: chunks64 fuel (bs.drop 64)

/-- Big-endian bytes of one 32-bit word. -/
def wordBytes (w : Nat) : List Nat := [w / 16777216 % 256, w / 65536 % 256, w / 256 % 256, w % 256]

/-- SHA-256 of a byte list. -/
def sha256Bytes (msg : List Nat) : List Nat :=
  let padded := shaPad msg
  let fin := (chunks64 padded.length padded).foldl compressBlock initH
  wordBytes fin.a ++ wordBytes fin.b ++ wordBytes fin.c ++ wordBytes fin.d ++
  wordBytes fin.e ++ wordBytes fin.f ++ wordBytes fin.g ++ wordBytes fin.h

/-- The source's `sha256` helper: `createHash('sha256').update(content).digest()`
on a string, i.e. SHA-256 of the UTF-8 bytes. -/
def sha256 (content : String) : List Nat := sha256Bytes (utf8Encode content)

/-! ## JSON values and the ECMAScript renderings the source relies on -/

mutual
/-- A JSON-compatible JavaScript value.  A number is carried as its ECMAScript
`ToString` rendering (see the header conventions); object entries keep
insertion order, which is how `JSON.stringify` emits the string-keyed objects
this repository builds. -/
inductive Json where
  | null : Json
  | bool : Bool → Json
  | num : String → Json
  | str : String → Json
  | arr : JsonArr → Json
  | obj : JsonObj → Json
/-- A JSON array, as its own inductive so all recursion below is structural. -/
inductive JsonArr where
  | nil : JsonArr
  | cons : Json → JsonArr → JsonArr
/-- A JSON object: an insertion-ordered list of key/value entries. -/
inductive JsonObj where
  | onil : JsonObj
  | ocons : String → Json → JsonObj → JsonObj
end

/-- One character of a JSON string literal, escaped as `JSON.stringify`
escapes it. -/
def escapeChar (c : Char) : List Char :=
  if c = '"' then ['\\', '"']
  else if c = '\\' then ['\\', '\\']
  else if c.toNat = 8 then ['\\', 'b']
  else if c.toNat = 9 then ['\\', 't']
  else if c.toNat = 10 then ['\\', 'n']
  else if c.toNat = 12 then ['\\', 'f']
  else if c.toNat = 13 then ['\\', 'r']
  else if c.toNat < 32 then ['\\', 'u', '0', '0', hexDigitChar (c.toNat / 16), hexDigitChar (c.toNat % 16)]
  else [c]

/-- A double-quoted, escaped JSON string literal. -/
def jsonQuote (s : String) : String :=
  "\"" ++ String.mk (s.data.foldr (fun c acc => escapeChar c ++ acc) []) ++ "\""

mutual
/-- `JSON.stringify`: the whitespace-free serialization used both for the
auth message payload and for the emitted op text. -/
def stringify : Json → String
  | .null => "null"
  | .bool true => "true"
  | .bool false => "false"
  | .num r => r
  | .str s => jsonQuote s
  | .arr xs => "[" ++ stringifyArr xs ++ "]"
  | .obj kvs => "\x7b" ++ stringifyObj kvs ++ "\x7d"
/-- Comma-joined serialization of array elements. -/
def stringifyArr : JsonArr → String
  | .nil => ""
  | .cons j .nil => stringify j
  | .cons j rest => stringify j ++ "," ++ stringifyArr rest
/-- Comma-joined serialization of object entries, in insertion order. -/
def stringifyObj : JsonObj → String
  | .onil => ""
  | .ocons k v .onil => jsonQuote k ++ ":" ++ stringify v
  | .ocons k v rest => jsonQuote k ++ ":" ++ stringify v ++ "," ++ stringifyObj rest
end

mutual
/-- ECMAScript `ToString`, as `'' + v` and string concatenation coerce a
value: strings pass through, numbers keep their rendering, arrays join their
elements with commas, plain objects become `[object Object]`. -/
def jsToString : Json → String
  | .null => "null"
  | .bool true => "true"
  | .bool false => "false"
  | .num r => r
  | .str s => s
  | .arr xs => jsArrToString xs
  | .obj _ => "[object Object]"
/-- `Array.prototype.join(',')` under `ToString`: `null` elements render
empty. -/
def jsArrToString : JsonArr → String
  | .nil => ""
  | .cons .null .nil => ""
  | .cons j .nil => jsToString j
  | .cons .null rest => "," ++ jsArrToString rest
  | .cons j rest => jsToString j ++ "," ++ jsArrToString rest
end

/-- Build an ordered JSON object from a key/value list. -/
def objOf : List (String × Json) → JsonObj
  | [] => .onil
  | (k, v) :: rest => .ocons k v (objOf rest)

/-- Property lookup on a JSON object, `Json.null` when absent (the builders
only look up keys they previously assigned). -/
def jObjLookupObj : JsonObj → String → Json
  | .onil, _ => .null
  | .ocons k v rest, key => if k = key then v else jObjLookupObj rest key

/-- Property lookup on a JSON value. -/
def jObjLookup : Json → String → Json
  | .obj kvs, key => jObjLookupObj kvs key
  | _, _ => .null

/-- The string carried by a JSON string value (the builders only apply this to
string-valued properties). -/
def jAsString : Json → String
  | .str s => s
  | _ => ""

deriving instance DecidableEq for Json

/-! ## The secp256k1 primitives, as an engine parameter -/

/-- A recoverable ECDSA signature as `@noble/secp256k1` hands it to the
source: the integers `r` and `s` plus a recovery id. -/
structure Signature where
  r : Nat
  s : Nat
  recovery : Nat

deriving instance DecidableEq for Signature

/-- The `sig` object the builders store on the op:
`{ v: ''+recovery, r: r.toString(), s: s.toString() }`. -/
def sigToJson (sig : Signature) : Json :=
  .obj (objOf [("v", .str (natDec sig.recovery)), ("r", .str (natDec sig.r)), ("s", .str (natDec sig.s))])

/-- `new secp.Signature(BigInt(sig.r), BigInt(sig.s), parseInt(sig.v))`:
parse the stored decimal strings back into a signature. -/
def parseSig (j : Json) : Signature :=
  { r := parseDec (jAsString (jObjLookup j "r")),
    s := parseDec (jAsString (jObjLookup j "s")),
    recovery := parseDec (jAsString (jObjLookup j "v")) }

/-- The interface the source imports from `@noble/secp256k1`:
`signAsync(digest, privKey)`, `verify(signature, digest, pubKey)`,
`Signature.recoverPublicKey(digest)` (returning public-key bytes, hex-encoded
by the caller), and public-key derivation. -/
structure EcEngine where
  sign : List Nat → List Nat → Signature
  verify : Signature → List Nat → List Nat → Bool
  recover : Signature → List Nat → List Nat
  pubOf : List Nat → List Nat

/-- Order of the secp256k1 group. -/
def secpN : Nat := 0xfffffffffffffffffffffffffffffffebaaedce6af48a03bbfd25e8cd0364141

/-- The library's documented round-trip contract: a signature over a digest,
made with a private key whose scalar is in `[1, n-1]`, verifies against the
derived public key and recovers exactly that key. -/
def EcSound (e : EcEngine) : Prop :=
  ∀ (z priv : List Nat), 1 ≤ bytesToNat priv → bytesToNat priv < secpN →
    e.verify (e.sign z priv) z (e.pubOf priv) = true ∧ e.recover (e.sign z priv) z = e.pubOf priv

/-- A small concrete engine satisfying `EcSound` whose `verify` is sensitive
to the digest argument; it instantiates the engine parameter in witnesses and
counterexamples. -/
def toyEngine : EcEngine :=
  { sign := fun z priv => { r := bytesToNat z + 1, s := bytesToNat priv + 1, recovery := 0 },
    verify := fun sig z pub => (sig.r == bytesToNat z + 1) && (natToBytes (sig.s - 1) == pub),
    recover := fun sig _ => natToBytes (sig.s - 1),
    pubOf := fun priv => natToBytes (bytesToNat priv) }

/-- An engine whose `recover` returns the digest it was given, used to observe
which digest a builder feeds into recovery. -/
def probeEngine : EcEngine :=
  { sign := fun z priv => { r := bytesToNat z, s := bytesToNat priv, recovery := 1 },
    verify := fun _ _ _ => true,
    recover := fun _ z => z,
    pubOf := fun priv => priv }

/-! ## The op records and the four builders -/

/-- The `test` diagnostic record each builder returns. -/
structure TestReport where
  valid : Bool
  pub : String
  pubRecovered : String

deriving instance DecidableEq for TestReport

/-- A builder's return value: the diagnostic record plus the serialized op. -/
structure BuildResult where
  test : TestReport
  result : String

deriving instance DecidableEq for BuildResult

/-- The `signAuth` proto object.  Its five fixed properties can be reassigned
through the dynamic `proto[messageKey] = message` write, so they are
`Json`-valued; `extra` holds a dynamic property with any other name, in
insertion order after the fixed ones. -/
structure AuthProto where
  p : Json
  op : Json
  sig : Json
  hash : Json
  salt : Json
  extra : List (String × Json)

deriving instance DecidableEq for AuthProto

/-- Insert-or-replace on the dynamic property list. -/
def upsert : List (String × Json) → String → Json → List (String × Json)
  | [], k, v => [(k, v)]
  | (k', v') :: rest, k, v => if k' = k then (k, v) :: rest else (k', v') :: upsert rest k v

/-- Association lookup on the dynamic property list. -/
def assocLookup : List (String × Json) → String → Option Json
  | [], _ => none
  | (k', v') :: rest, k => if k' = k then some v' else assocLookup rest k

/-- `proto[key] = v`, the JavaScript computed-property assignment. -/
def setKey (a : AuthProto) (k : String) (v : Json) : AuthProto :=
  if k = "p" then { a with p := v }
  else if k = "op" then { a with op := v }
  else if k = "sig" then { a with sig := v }
  else if k = "hash" then { a with hash := v }
  else if k = "salt" then { a with salt := v }
  else { a with extra := upsert a.extra k v }

/-- `proto[key]`, the computed-property read (`Json.null` when the key was
never assigned; the builders only read keys they assigned). -/
def getKey (a : AuthProto) (k : String) : Json :=
  if k = "p" then a.p
  else if k = "op" then a.op
  else if k = "sig" then a.sig
  else if k = "hash" then a.hash
  else if k = "salt" then a.salt
  else (assocLookup a.extra k).getD Json.null

/-- The auth proto as the JSON value `JSON.stringify` serializes, fixed
properties first, then the dynamic one. -/
def authProtoToJson (a : AuthProto) : Json :=
  .obj (objOf ([("p", a.p), ("op", a.op), ("sig", a.sig), ("hash", a.hash), ("salt", a.salt)] ++ a.extra))

/-- The initial auth proto literal:
`{ p: 'tap', op: 'privilege-auth', sig: null, hash: null, salt: ''+salt }`. -/
def authProto0 (salt : Json) : AuthProto :=
  { p := .str "tap", op := .str "privilege-auth", sig := .null, hash := .null,
    salt := .str (jsToString salt), extra := [] }

/-- The digest `signAuth` signs: `sha256(JSON.stringify(message) + proto.salt)`. -/
def authDigest (message salt : Json) : List Nat :=
  sha256 (stringify message ++ jsToString (authProto0 salt).salt)

/-- The assembled auth op: dynamic `messageKey` write, then the `sig` and
`hash` property assignments. -/
def authProtoOf (e : EcEngine) (privKeyHex messageKey : String) (message salt : Json) : AuthProto :=
  let privKey := hexDecode privKeyHex
  let msgHash := authDigest message salt
  let signature := e.sign msgHash privKey
  let proto1 := setKey (authProto0 salt) messageKey message
  let proto2 := { proto1 with sig := sigToJson signature }
  { proto2 with hash := .str (hexEncode msgHash) }

/-- The digest `signAuth` re-derives from the assembled op:
`sha256(JSON.stringify(test_proto[messageKey]) + test_proto.salt)`. -/
def authTestDigest (a : AuthProto) (messageKey : String) : List Nat :=
  sha256 (stringify (getKey a messageKey) ++ jsToString a.salt)

/-- The source's `signAuth` builder. -/
def signAuth (e : EcEngine) (privKeyHex pubKeyHex messageKey : String) (message salt : Json) : BuildResult :=
  let pubKey := hexDecode pubKeyHex
  let proto := authProtoOf e privKeyHex messageKey message salt
  let msgHash := authDigest message salt
  let signature := e.sign msgHash (hexDecode privKeyHex)
  let isValid := e.verify signature (authTestDigest proto messageKey) pubKey
  let test := parseSig proto.sig
  { test := { valid := isValid, pub := hexEncode pubKey,
              pubRecovered := hexEncode (e.recover test msgHash) },
    result := stringify (authProtoToJson proto) }

/-- The nested `prv` block shared by the two mint protos. -/
structure MintPrv where
  sig : Json
  hash : Json
  address : String
  salt : String

deriving instance DecidableEq for MintPrv

/-- The `signMint` proto object. -/
structure MintProto where
  p : String
  op : String
  tick : String
  amt : Json
  prv : MintPrv

deriving instance DecidableEq for MintProto

/-- The initial mint proto literal. -/
def mintProto0 (ticker : String) (amount : Json) (address : String) (salt : Json) : MintProto :=
  { p := "tap", op := "token-mint", tick := ticker, amt := amount,
    prv := { sig := .null, hash := .null, address := address, salt := jsToString salt } }

/-- The canonical byte string `signMint` hashes:
`proto.p + '-' + proto.op + '-' + proto.tick + '-' + proto.amt + '-' + proto.prv.address + '-' + proto.prv.salt`. -/
def mintCanonical (pr : MintProto) : String :=
  pr.p ++ "-" ++ pr.op ++ "-" ++ pr.tick ++ "-" ++ jsToString pr.amt ++ "-" ++ pr.prv.address ++ "-" ++ pr.prv.salt

/-- The digest `signMint` signs. -/
def mintDigest (ticker : String) (amount : Json) (address : String) (salt : Json) : List Nat :=
  sha256 (mintCanonical (mintProto0 ticker amount address salt))

/-- The assembled mint op: `prv.sig` and `prv.hash` filled in. -/
def mintProtoOf (e : EcEngine) (privKeyHex ticker : String) (amount : Json) (address : String) (salt : Json) : MintProto :=
  let proto0 := mintProto0 ticker amount address salt
  let msgHash := mintDigest ticker amount address salt
  let signature := e.sign msgHash (hexDecode privKeyHex)
  { proto0 with prv := { proto0.prv with sig := sigToJson signature, hash := .str (hexEncode msgHash) } }

/-- The mint proto as the JSON value `JSON.stringify` serializes. -/
def mintProtoToJson (pr : MintProto) : Json :=
  .obj (objOf [("p", .str pr.p), ("op", .str pr.op), ("tick", .str pr.tick), ("amt", pr.amt),
    ("prv", .obj (objOf [("sig", pr.prv.sig), ("hash", pr.prv.hash),
      ("address", .str pr.prv.address), ("salt", .str pr.prv.salt)]))])

/-- The source's `signMint` builder. -/
def signMint (e : EcEngine) (privKeyHex pubKeyHex ticker : String) (amount : Json) (address : String) (salt : Json) : BuildResult :=
  let pubKey := hexDecode pubKeyHex
  let proto := mintProtoOf e privKeyHex ticker amount address salt
  let msgHash := mintDigest ticker amount address salt
  let signature := e.sign msgHash (hexDecode privKeyHex)
  let isValid := e.verify signature (sha256 (mintCanonical proto)) pubKey
  let test := parseSig proto.prv.sig
  { test := { valid := isValid, pub := hexEncode pubKey,
              pubRecovered := hexEncode (e.recover test msgHash) },
    result := stringify (mintProtoToJson proto) }

/-- The `signDmtMint` proto object. -/
structure DmtProto where
  p : String
  op : String
  tick : String
  blk : Json
  dep : String
  prv : MintPrv

deriving instance DecidableEq for DmtProto

/-- The initial DMT-mint proto literal; the ticker is lower-cased here. -/
def dmtProto0 (ticker : String) (block : Json) (dependency address : String) (salt : Json) : DmtProto :=
  { p := "tap", op := "dmt-mint", tick := asciiLower ticker, blk := block, dep := dependency,
    prv := { sig := .null, hash := .null, address := address, salt := jsToString salt } }

/-- The canonical byte string `signDmtMint` hashes. -/
def dmtCanonical (pr : DmtProto) : String :=
  pr.p ++ "-" ++ pr.op ++ "-" ++ pr.tick ++ "-" ++ jsToString pr.blk ++ "-" ++ pr.dep ++ "-" ++ pr.prv.address ++ "-" ++ pr.prv.salt

/-- The digest `signDmtMint` signs. -/
def dmtDigest (ticker : String) (block : Json) (dependency address : String) (salt : Json) : List Nat :=
  sha256 (dmtCanonical (dmtProto0 ticker block dependency address salt))

/-- The assembled DMT-mint op. -/
def dmtProtoOf (e : EcEngine) (privKeyHex ticker : String) (block : Json) (dependency address : String) (salt : Json) : DmtProto :=
  let proto0 := dmtProto0 ticker block dependency address salt
  let msgHash := dmtDigest ticker block dependency address salt
  let signature := e.sign msgHash (hexDecode privKeyHex)
  { proto0 with prv := { proto0.prv with sig := sigToJson signature, hash := .str (hexEncode msgHash) } }

/-- The DMT-mint proto as the JSON value `JSON.stringify` serializes. -/
def dmtProtoToJson (pr : DmtProto) : Json :=
  .obj (objOf [("p", .str pr.p), ("op", .str pr.op), ("tick", .str pr.tick), ("blk", pr.blk),
    ("dep", .str pr.dep),
    ("prv", .obj (objOf [("sig", pr.prv.sig), ("hash", pr.prv.hash),
      ("address", .str pr.prv.address), ("salt", .str pr.prv.salt)]))])

/-- The source's `signDmtMint` builder. -/
def signDmtMint (e : EcEngine) (privKeyHex pubKeyHex ticker : String) (block : Json) (dependency address : String) (salt : Json) : BuildResult :=
  let pubKey := hexDecode pubKeyHex
  let proto := dmtProtoOf e privKeyHex ticker block dependency address salt
  let msgHash := dmtDigest ticker block dependency address salt
  let signature := e.sign msgHash (hexDecode privKeyHex)
  let isValid := e.verify signature (sha256 (dmtCanonical proto)) pubKey
  let test := parseSig proto.prv.sig
  { test := { valid := isValid, pub := hexEncode pubKey,
              pubRecovered := hexEncode (e.recover test msgHash) },
    result := stringify (dmtProtoToJson proto) }

/-- The `signVerification` proto object. -/
structure VerifProto where
  p : String
  op : String
  sig : Json
  hash : Json
  address : String
  salt : String
  prv : String
  verify : String
  col : String
  seq : Json

deriving instance DecidableEq for VerifProto

/-- The initial provenance-verification proto literal. -/
def verifProto0 (authorityId contentHash collection : String) (sequence : Json) (address : String) (salt : Json) : VerifProto :=
  { p := "tap", op := "privilege-auth", sig := .null, hash := .null, address := address,
    salt := jsToString salt, prv := authorityId, verify := contentHash, col := collection, seq := sequence }

/-- The canonical byte string `signVerification` hashes:
`proto.prv + '-' + proto.col + '-' + proto.verify + '-' + proto.seq + '-' + proto.address + '-' + proto.salt`. -/
def verifCanonical (pr : VerifProto) : String :=
  pr.prv ++ "-" ++ pr.col ++ "-" ++ pr.verify ++ "-" ++ jsToString pr.seq ++ "-" ++ pr.address ++ "-" ++ pr.salt

/-- The digest `signVerification` signs. -/
def verifDigest (authorityId contentHash collection : String) (sequence : Json) (address : String) (salt : Json) : List Nat :=
  sha256 (verifCanonical (verifProto0 authorityId contentHash collection sequence address salt))

/-- The assembled provenance-verification op. -/
def verifProtoOf (e : EcEngine) (privKeyHex authorityId contentHash collection : String) (sequence : Json) (address : String) (salt : Json) : VerifProto :=
  let proto0 := verifProto0 authorityId contentHash collection sequence address salt
  let msgHash := verifDigest authorityId contentHash collection sequence address salt
  let signature := e.sign msgHash (hexDecode privKeyHex)
  { proto0 with sig := sigToJson signature, hash := .str (hexEncode msgHash) }

/-- The provenance-verification proto as the JSON value `JSON.stringify`
serializes. -/
def verifProtoToJson (pr : VerifProto) : Json :=
  .obj (objOf [("p", .str pr.p), ("op", .str pr.op), ("sig", pr.sig), ("hash", pr.hash),
    ("address", .str pr.address), ("salt", .str pr.salt), ("prv", .str pr.prv),
    ("verify", .str pr.verify), ("col", .str pr.col), ("seq", pr.seq)])

/-- The source's `signVerification` builder. -/
def signVerification (e : EcEngine) (privKeyHex pubKeyHex authorityId contentHash collection : String) (sequence : Json) (address : String) (salt : Json) : BuildResult :=
  let pubKey := hexDecode pubKeyHex
  let proto := verifProtoOf e privKeyHex authorityId contentHash collection sequence address salt
  let msgHash := verifDigest authorityId contentHash collection sequence address salt
  let signature := e.sign msgHash (hexDecode privKeyHex)
  let isValid := e.verify signature (sha256 (verifCanonical proto)) pubKey
  let test := parseSig proto.sig
  { test := { valid := isValid, pub := hexEncode pubKey,
              pubRecovered := hexEncode (e.recover test msgHash) },
    result := stringify (verifProtoToJson proto) }

/-- The round-trip property the spec demands of every build: the diagnostic
record reports `valid == true` and a recovered key equal to the hex encoding
of the supplied public key. -/
def RoundTripOK (r : BuildResult) (pubKeyHex : String) : Prop :=
  r.test.valid = true ∧ r.test.pubRecovered = hexEncode (hexDecode pubKeyHex)

/-! ## Basic theorems: test vectors, render / parse round-trips, engine facts -/

/-- FIPS 180-4 test vector: SHA-256 of the empty string. -/
theorem sha256_empty_vector :
    sha256 "" =
      [0xe3, 0xb0, 0xc4, 0x42, 0x98, 0xfc, 0x1c, 0x14, 0x9a, 0xfb, 0xf4, 0xc8,
       0x99, 0x6f, 0xb9, 0x24, 0x27, 0xae, 0x41, 0xe4, 0x64, 0x9b, 0x93, 0x4c,
       0xa4, 0x95, 0x99, 0x1b, 0x78, 0x52, 0xb8, 0x55] := by decide

/-- FIPS 180-4 test vector: SHA-256 of `"abc"`. -/
theorem sha256_abc_vector :
    sha256 "abc" =
      [0xba, 0x78, 0x16, 0xbf, 0x8f, 0x01, 0xcf, 0xea, 0x41, 0x41, 0x40, 0xde,
       0x5d, 0xae, 0x22, 0x23, 0xb0, 0x03, 0x61, 0xa3, 0x96, 0x17, 0x7a, 0x9c,
       0xb4, 0x10, 0xff, 0x61, 0xf2, 0x00, 0x15, 0xad] := by decide

/-- Digit characters parse back to their digit (bounded check). -/
theorem char_digit_toNat : ∀ d, d < 10 → (Char.ofNat (48 + d)).toNat = 48 + d := by decide

/-- Folding `parseDec`'s step over the digit characters of `n` (as produced by
`digitsRev`) recovers `n`. -/
theorem digitsRev_val (fuel : Nat) : ∀ n, n ≤ fuel →
    ((digitsRev fuel n).reverse.map (fun d => Char.ofNat (48 + d))).foldl
      (fun acc ch => acc * 10 + (ch.toNat - 48)) 0 = n := by
  induction fuel with
  | zero =>
    intro n h
    interval_cases n
    simp [digitsRev]
  | succ fuel ih =>
    intro n h
    by_cases h0 : n = 0
    · subst h0; simp [digitsRev]
    · rw [digitsRev, if_neg h0]
      simp only [List.reverse_cons, List.map_append, List.map_cons, List.map_nil,
        List.foldl_append, List.foldl_cons, List.foldl_nil]
      have hdiv : n / 10 ≤ fuel := by
        have : n / 10 < n := Nat.div_lt_self (Nat.pos_of_ne_zero h0) (by omega)
        omega
      rw [ih (n / 10) hdiv, char_digit_toNat (n % 10) (Nat.mod_lt n (by omega))]
      omega

/-- `BigInt(string)` / `parseInt(string)` invert the decimal rendering. -/
theorem parseDec_natDec (n : Nat) : parseDec (natDec n) = n := by
  by_cases h0 : n = 0
  · subst h0; decide
  · rw [natDec, if_neg h0]
    simpa [parseDec] using digitsRev_val n n le_rfl

/-- Parsing the stored sig object recovers the signature. -/
theorem parseSig_sigToJson (sig : Signature) : parseSig (sigToJson sig) = sig := by
  show Signature.mk (parseDec (natDec sig.r)) (parseDec (natDec sig.s)) (parseDec (natDec sig.recovery)) = sig
  rw [parseDec_natDec, parseDec_natDec, parseDec_natDec]

/-- The toy engine satisfies the library contract. -/
theorem toySound : EcSound toyEngine := by
  intro z priv h1 h2
  constructor
  · simp [toyEngine, Nat.add_sub_cancel]
  · simp [toyEngine, Nat.add_sub_cancel]

/-! ## Helper lemmas about the op records -/

/-- String append is cancellative on the left. -/
theorem string_append_inj_right (a : String) {b c : String} (h : a ++ b = a ++ c) : b = c := by
  have hd := congrArg String.data h
  simp only [String.data_append] at hd
  exact congrArg String.mk (List.append_cancel_left hd)

/-- A computed-property write under a key other than `"p"` leaves `p` alone. -/
theorem setKey_p_ne (a : AuthProto) (k : String) (v : Json) (h : k ≠ "p") :
    (setKey a k v).p = a.p := by
  unfold setKey
  split_ifs <;> simp_all

/-- A computed-property write under a key other than `"op"` leaves `op` alone. -/
theorem setKey_op_ne (a : AuthProto) (k : String) (v : Json) (h : k ≠ "op") :
    (setKey a k v).op = a.op := by
  unfold setKey
  split_ifs <;> simp_all

/-- A computed-property write under a key other than `"salt"` leaves `salt`
alone. -/
theorem setKey_salt_ne (a : AuthProto) (k : String) (v : Json) (h : k ≠ "salt") :
    (setKey a k v).salt = a.salt := by
  unfold setKey
  split_ifs <;> simp_all

/-- Unless the dynamic write hit `salt`, the assembled auth op keeps the
salt stored by the proto literal. -/
theorem authProtoOf_salt (e : EcEngine) (ph mk : String) (m s : Json) (h3 : mk ≠ "salt") :
    (authProtoOf e ph mk m s).salt = (authProto0 s).salt := by
  show (setKey (authProto0 s) mk m).salt = (authProto0 s).salt
  exact setKey_salt_ne _ _ _ h3

/-- Reading back the dynamic key recovers the message, as long as the key is
not one of the properties assigned after the dynamic write (`sig`, `hash`) or
the canonicalization input `salt`. -/
theorem authProtoOf_getKey_self (e : EcEngine) (ph mk : String) (m s : Json)
    (h1 : mk ≠ "sig") (h2 : mk ≠ "hash") (h3 : mk ≠ "salt") :
    getKey (authProtoOf e ph mk m s) mk = m := by
  by_cases hp : mk = "p"
  · subst hp; rfl
  by_cases hop : mk = "op"
  · subst hop; rfl
  unfold authProtoOf getKey setKey
  simp [hp, hop, h1, h2, h3, upsert, assocLookup]

/-- For a non-reserved-suffix message key, the re-derived digest equals the
signed digest. -/
theorem authTestDigest_eq (e : EcEngine) (ph mk : String) (m s : Json)
    (h1 : mk ≠ "sig") (h2 : mk ≠ "hash") (h3 : mk ≠ "salt") :
    authTestDigest (authProtoOf e ph mk m s) mk = authDigest m s := by
  unfold authTestDigest authDigest
  rw [authProtoOf_getKey_self e ph mk m s h1 h2 h3, authProtoOf_salt e ph mk m s h3]

/-- The assembled mint op canonicalizes to the same string as the proto
literal: filling `prv.sig` / `prv.hash` does not touch the canonical fields. -/
theorem mintCanonical_assembled (e : EcEngine) (ph t : String) (a : Json) (ad : String) (s : Json) :
    mintCanonical (mintProtoOf e ph t a ad s) = mintCanonical (mintProto0 t a ad s) := rfl

/-- Likewise for the DMT-mint op. -/
theorem dmtCanonical_assembled (e : EcEngine) (ph t : String) (b : Json) (dep ad : String) (s : Json) :
    dmtCanonical (dmtProtoOf e ph t b dep ad s) = dmtCanonical (dmtProto0 t b dep ad s) := rfl

/-- Likewise for the provenance-verification op. -/
theorem verifCanonical_assembled (e : EcEngine) (ph aid ch col : String) (seq : Json) (ad : String) (s : Json) :
    verifCanonical (verifProtoOf e ph aid ch col seq ad s) = verifCanonical (verifProto0 aid ch col seq ad s) := rfl

/-- SHA-256 digests are 32 bytes long, whatever the input. -/
theorem sha256_length (s : String) : (sha256 s).length = 32 := by
  simp [sha256, sha256Bytes, wordBytes]

/-- Hex encoding yields two characters per byte. -/
theorem hexEncode_length (bs : List Nat) : (hexEncode bs).length = 2 * bs.length := by
  unfold hexEncode
  show (bs.foldr (fun b acc => hexDigitChar (b / 16 % 16) :: hexDigitChar (b % 16) :: acc) []).length
      = 2 * bs.length
  induction bs with
  | nil => rfl
  | cons b rest ih =>
    simp only [List.foldr_cons, List.length_cons, ih, List.length]
    omega

/-- Every hex digit character is a lowercase hex digit (bounded check). -/
theorem hexDigitChar_mem : ∀ d, d < 16 → hexDigitChar d ∈ "0123456789abcdef".data := by decide

/-- Hex encodings consist of lowercase hex digit characters only. -/
theorem hexEncode_lower_hex (bs : List Nat) : ∀ c ∈ (hexEncode bs).data, c ∈ "0123456789abcdef".data := by
  unfold hexEncode
  show ∀ c ∈ bs.foldr (fun b acc => hexDigitChar (b / 16 % 16) :: hexDigitChar (b % 16) :: acc) [], _
  induction bs with
  | nil => intro c hc; simp at hc
  | cons b rest ih =>
    intro c hc
    simp only [List.foldr_cons, List.mem_cons] at hc
    rcases hc with h | h | h
    · subst h; exact hexDigitChar_mem _ (Nat.mod_lt _ (by omega))
    · subst h; exact hexDigitChar_mem _ (Nat.mod_lt _ (by omega))
    · exact ih c h

/-! ## Claims -/

/-- C1 (amended): for every engine satisfying the secp256k1 library's
round-trip contract, every valid KeyPair (private scalar in `[1, n-1]`,
public key derived from it), and all field values and salts, each of the four
op builders returns a verification record with `valid == true` and
`pubRecovered` equal to the hex encoding of the supplied public key —
provided `signAuth`'s `messageKey` is none of `"sig"`, `"hash"`, `"salt"`,
whose dynamic overwrite desynchronizes the re-derived digest from the signed
one (see the counterexample). -/
theorem C1_roundtrip_amended (e : EcEngine) (he : EcSound e) (privKeyHex pubKeyHex : String)
    (hlo : 1 ≤ bytesToNat (hexDecode privKeyHex)) (hhi : bytesToNat (hexDecode privKeyHex) < secpN)
    (hpub : hexDecode pubKeyHex = e.pubOf (hexDecode privKeyHex))
    (messageKey : String) (hmk1 : messageKey ≠ "sig") (hmk2 : messageKey ≠ "hash") (hmk3 : messageKey ≠ "salt")
    (message saltA : Json) (ticker : String) (amount : Json) (address : String) (saltM : Json)
    (dticker : String) (block : Json) (dependency daddress : String) (saltD : Json)
    (authorityId contentHash collection : String) (sequence : Json) (vaddress : String) (saltV : Json) :
    RoundTripOK (signAuth e privKeyHex pubKeyHex messageKey message saltA) pubKeyHex
    ∧ RoundTripOK (signMint e privKeyHex pubKeyHex ticker amount address saltM) pubKeyHex
    ∧ RoundTripOK (signDmtMint e privKeyHex pubKeyHex dticker block dependency daddress saltD) pubKeyHex
    ∧ RoundTripOK (signVerification e privKeyHex pubKeyHex authorityId contentHash collection sequence vaddress saltV) pubKeyHex := by
  refine ⟨⟨?_, ?_⟩, ⟨?_, ?_⟩, ⟨?_, ?_⟩, ⟨?_, ?_⟩⟩
  · show e.verify (e.sign (authDigest message saltA) (hexDecode privKeyHex))
        (authTestDigest (authProtoOf e privKeyHex messageKey message saltA) messageKey)
        (hexDecode pubKeyHex) = true
    rw [authTestDigest_eq e privKeyHex messageKey message saltA hmk1 hmk2 hmk3, hpub]
    exact (he _ _ hlo hhi).1
  · show hexEncode (e.recover
        (parseSig (sigToJson (e.sign (authDigest message saltA) (hexDecode privKeyHex))))
        (authDigest message saltA)) = hexEncode (hexDecode pubKeyHex)
    rw [parseSig_sigToJson, (he _ _ hlo hhi).2, hpub]
  · show e.verify (e.sign (mintDigest ticker amount address saltM) (hexDecode privKeyHex))
        (sha256 (mintCanonical (mintProtoOf e privKeyHex ticker amount address saltM)))
        (hexDecode pubKeyHex) = true
    rw [mintCanonical_assembled, hpub]
    exact (he _ _ hlo hhi).1
  · show hexEncode (e.recover
        (parseSig (sigToJson (e.sign (mintDigest ticker amount address saltM) (hexDecode privKeyHex))))
        (mintDigest ticker amount address saltM)) = hexEncode (hexDecode pubKeyHex)
    rw [parseSig_sigToJson, (he _ _ hlo hhi).2, hpub]
  · show e.verify (e.sign (dmtDigest dticker block dependency daddress saltD) (hexDecode privKeyHex))
        (sha256 (dmtCanonical (dmtProtoOf e privKeyHex dticker block dependency daddress saltD)))
        (hexDecode pubKeyHex) = true
    rw [dmtCanonical_assembled, hpub]
    exact (he _ _ hlo hhi).1
  · show hexEncode (e.recover
        (parseSig (sigToJson (e.sign (dmtDigest dticker block dependency daddress saltD) (hexDecode privKeyHex))))
        (dmtDigest dticker block dependency daddress saltD)) = hexEncode (hexDecode pubKeyHex)
    rw [parseSig_sigToJson, (he _ _ hlo hhi).2, hpub]
  · show e.verify (e.sign (verifDigest authorityId contentHash collection sequence vaddress saltV) (hexDecode privKeyHex))
        (sha256 (verifCanonical (verifProtoOf e privKeyHex authorityId contentHash collection sequence vaddress saltV)))
        (hexDecode pubKeyHex) = true
    rw [verifCanonical_assembled, hpub]
    exact (he _ _ hlo hhi).1
  · show hexEncode (e.recover
        (parseSig (sigToJson (e.sign (verifDigest authorityId contentHash collection sequence vaddress saltV) (hexDecode privKeyHex))))
        (verifDigest authorityId contentHash collection sequence vaddress saltV)) = hexEncode (hexDecode pubKeyHex)
    rw [parseSig_sigToJson, (he _ _ hlo hhi).2, hpub]

/-- Witness for C1: the amended round-trip theorem applied to the toy engine
and the concrete key pair `01`/`01` with concrete fields. -/
theorem C1_roundtrip_amended_witness :
    RoundTripOK (signAuth toyEngine "01" "01" "auth" (Json.str "m") (Json.str "1")) "01"
    ∧ RoundTripOK (signMint toyEngine "01" "01" "tok" (Json.num "5") "addr" (Json.str "1")) "01"
    ∧ RoundTripOK (signDmtMint toyEngine "01" "01" "NAT" (Json.num "2") "dep" "addr" (Json.str "1")) "01"
    ∧ RoundTripOK (signVerification toyEngine "01" "01" "aid" "ch" "col" (Json.num "0") "addr" (Json.str "1")) "01" :=
  C1_roundtrip_amended toyEngine toySound "01" "01" (by decide) (by decide) (by decide)
    "auth" (by decide) (by decide) (by decide)
    (Json.str "m") (Json.str "1") "tok" (Json.num "5") "addr" (Json.str "1")
    "NAT" (Json.num "2") "dep" "addr" (Json.str "1")
    "aid" "ch" "col" (Json.num "0") "addr" (Json.str "1")

/-- Counterexample to C1 as stated: with a contract-satisfying engine and the
valid key pair `01`/`01`, `signAuth` applied to the field values
`messageKey = "salt"`, `message = "x"`, `salt = 0.5` returns a record with
`valid == false`: the dynamic write overwrites the salt, so the re-derived
digest differs from the signed one. -/
theorem C1_roundtrip_counterexample :
    EcSound toyEngine
    ∧ 1 ≤ bytesToNat (hexDecode "01")
    ∧ bytesToNat (hexDecode "01") < secpN
    ∧ hexDecode "01" = toyEngine.pubOf (hexDecode "01")
    ∧ (signAuth toyEngine "01" "01" "salt" (Json.str "x") (Json.num "0.5")).test.valid = false :=
  ⟨toySound, by decide, by decide, by decide, by decide⟩

/-- C2: for every TokenMint build, the canonical byte string hashed is exactly
the hyphen-joined concatenation
`"tap" + "-" + "token-mint" + "-" + ticker + "-" + amount + "-" + address + "-" + salt`
with `amount` in its decimal rendering; the emitted `prv.hash` and `prv.sig`
are the hex digest and the signature of the SHA-256 of that string; and the
claim's concrete example yields exactly the expected canonical string. -/
theorem C2_mint_canonical :
    (∀ (e : EcEngine) (privKeyHex ticker : String) (amount : Json) (address : String) (salt : Json),
      mintCanonical (mintProtoOf e privKeyHex ticker amount address salt)
          = "tap" ++ "-" ++ "token-mint" ++ "-" ++ ticker ++ "-" ++ jsToString amount
              ++ "-" ++ address ++ "-" ++ jsToString salt
        ∧ (mintProtoOf e privKeyHex ticker amount address salt).prv.hash
          = .str (hexEncode (sha256 (mintCanonical (mintProtoOf e privKeyHex ticker amount address salt))))
        ∧ (mintProtoOf e privKeyHex ticker amount address salt).prv.sig
          = sigToJson (e.sign (sha256 (mintCanonical (mintProtoOf e privKeyHex ticker amount address salt)))
              (hexDecode privKeyHex)))
    ∧ mintCanonical (mintProtoOf toyEngine "01" "randomtoken4" (Json.num "1000")
        "tb1pf9jluy2g797290uq5nutqm2yuynds6uf868ytc37nht53c5j8w3s7nfta7" (Json.str "0.123"))
      = "tap-token-mint-randomtoken4-1000-tb1pf9jluy2g797290uq5nutqm2yuynds6uf868ytc37nht53c5j8w3s7nfta7-0.123" := by
  refine ⟨fun e ph t a ad s => ⟨rfl, rfl, rfl⟩, by decide⟩

/-- C3: the claim expects `signVerification` with
`sequence = 9007199254740992` to fail with `SequenceOutOfRange`, but the code
performs no range validation at all: at that sequence it still assembles the
op (with `seq` stored verbatim and folded into the canonical string) and
emits the serialized text, exactly as it does at `9007199254740991`, and the
emitted op even self-verifies. -/
theorem C3_sequence_no_range_check :
    (verifProtoOf toyEngine "01" "aid" "ch" "col" (Json.num "9007199254740992") "addr" (Json.str "s")).seq
        = Json.num "9007199254740992"
    ∧ (signVerification toyEngine "01" "01" "aid" "ch" "col" (Json.num "9007199254740992") "addr" (Json.str "s")).result
        = stringify (verifProtoToJson (verifProtoOf toyEngine "01" "aid" "ch" "col" (Json.num "9007199254740992") "addr" (Json.str "s")))
    ∧ verifCanonical (verifProto0 "aid" "ch" "col" (Json.num "9007199254740992") "addr" (Json.str "s"))
        = "aid-col-ch-9007199254740992-addr-s"
    ∧ (signVerification toyEngine "01" "01" "aid" "ch" "col" (Json.num "9007199254740992") "addr" (Json.str "s")).test.valid
        = true
    ∧ (verifProtoOf toyEngine "01" "aid" "ch" "col" (Json.num "9007199254740991") "addr" (Json.str "s")).seq
        = Json.num "9007199254740991"
    ∧ (signVerification toyEngine "01" "01" "aid" "ch" "col" (Json.num "9007199254740991") "addr" (Json.str "s")).result
        = stringify (verifProtoToJson (verifProtoOf toyEngine "01" "aid" "ch" "col" (Json.num "9007199254740991") "addr" (Json.str "s")))
    ∧ (signVerification toyEngine "01" "01" "aid" "ch" "col" (Json.num "9007199254740991") "addr" (Json.str "s")).test.valid
        = true :=
  ⟨rfl, rfl, by decide, by decide, rfl, rfl, by decide⟩

/-- C4 (amended): in every builder the signature verification reported in the
output record is computed against the digest re-derived from the assembled
op's own fields; the public-key recovery, however, is computed against the
original in-memory digest.  For `signMint`, `signDmtMint` and
`signVerification` the two coincide definitionally (assembly never changes a
canonical field), but in `signAuth` they can differ (see the
counterexample). -/
theorem C4_rederivation_amended (e : EcEngine) (privKeyHex pubKeyHex messageKey : String)
    (message saltA : Json) (ticker : String) (amount : Json) (address : String) (saltM : Json)
    (dticker : String) (block : Json) (dependency daddress : String) (saltD : Json)
    (authorityId contentHash collection : String) (sequence : Json) (vaddress : String) (saltV : Json) :
    ((signAuth e privKeyHex pubKeyHex messageKey message saltA).test.valid
        = e.verify (e.sign (authDigest message saltA) (hexDecode privKeyHex))
            (authTestDigest (authProtoOf e privKeyHex messageKey message saltA) messageKey)
            (hexDecode pubKeyHex)
      ∧ (signAuth e privKeyHex pubKeyHex messageKey message saltA).test.pubRecovered
        = hexEncode (e.recover (parseSig (authProtoOf e privKeyHex messageKey message saltA).sig)
            (authDigest message saltA)))
    ∧ ((signMint e privKeyHex pubKeyHex ticker amount address saltM).test.valid
        = e.verify (e.sign (mintDigest ticker amount address saltM) (hexDecode privKeyHex))
            (sha256 (mintCanonical (mintProtoOf e privKeyHex ticker amount address saltM)))
            (hexDecode pubKeyHex)
      ∧ (signMint e privKeyHex pubKeyHex ticker amount address saltM).test.pubRecovered
        = hexEncode (e.recover (parseSig (mintProtoOf e privKeyHex ticker amount address saltM).prv.sig)
            (sha256 (mintCanonical (mintProtoOf e privKeyHex ticker amount address saltM)))))
    ∧ ((signDmtMint e privKeyHex pubKeyHex dticker block dependency daddress saltD).test.valid
        = e.verify (e.sign (dmtDigest dticker block dependency daddress saltD) (hexDecode privKeyHex))
            (sha256 (dmtCanonical (dmtProtoOf e privKeyHex dticker block dependency daddress saltD)))
            (hexDecode pubKeyHex)
      ∧ (signDmtMint e privKeyHex pubKeyHex dticker block dependency daddress saltD).test.pubRecovered
        = hexEncode (e.recover (parseSig (dmtProtoOf e privKeyHex dticker block dependency daddress saltD).prv.sig)
            (sha256 (dmtCanonical (dmtProtoOf e privKeyHex dticker block dependency daddress saltD)))))
    ∧ ((signVerification e privKeyHex pubKeyHex authorityId contentHash collection sequence vaddress saltV).test.valid
        = e.verify (e.sign (verifDigest authorityId contentHash collection sequence vaddress saltV) (hexDecode privKeyHex))
            (sha256 (verifCanonical (verifProtoOf e privKeyHex authorityId contentHash collection sequence vaddress saltV)))
            (hexDecode pubKeyHex)
      ∧ (signVerification e privKeyHex pubKeyHex authorityId contentHash collection sequence vaddress saltV).test.pubRecovered
        = hexEncode (e.recover (parseSig (verifProtoOf e privKeyHex authorityId contentHash collection sequence vaddress saltV).sig)
            (sha256 (verifCanonical (verifProtoOf e privKeyHex authorityId contentHash collection sequence vaddress saltV))))) :=
  ⟨⟨rfl, rfl⟩, ⟨rfl, rfl⟩, ⟨rfl, rfl⟩, ⟨rfl, rfl⟩⟩

/-- Counterexample to C4 as stated: with an engine whose `recover` echoes the
digest it is handed, a `signAuth` call whose dynamic write changed the salt
reports a `pubRecovered` different from what recovery against the re-derived
digest would give — the code recovers against the original in-memory
digest. -/
theorem C4_rederivation_counterexample :
    (signAuth probeEngine "01" "01" "salt" (Json.str "x") (Json.num "0.5")).test.pubRecovered
      ≠ hexEncode (probeEngine.recover
          (parseSig (authProtoOf probeEngine "01" "salt" (Json.str "x") (Json.num "0.5")).sig)
          (authTestDigest (authProtoOf probeEngine "01" "salt" (Json.str "x") (Json.num "0.5")) "salt")) := by
  decide

/-- C5: two DmtMint builds agreeing on block, dependency, address and salt
whose tickers differ only in (ASCII) letter case produce identical canonical
byte strings and identical digests, because the ticker is lower-cased before
inclusion; this holds across engines and signing keys. -/
theorem C5_dmt_case_normalization (t1 t2 : String) (hcase : asciiLower t1 = asciiLower t2)
    (e1 e2 : EcEngine) (ph1 ph2 : String) (block : Json) (dependency address : String) (salt : Json) :
    dmtCanonical (dmtProtoOf e1 ph1 t1 block dependency address salt)
        = dmtCanonical (dmtProtoOf e2 ph2 t2 block dependency address salt)
    ∧ dmtDigest t1 block dependency address salt = dmtDigest t2 block dependency address salt
    ∧ (dmtProtoOf e1 ph1 t1 block dependency address salt).tick
        = (dmtProtoOf e2 ph2 t2 block dependency address salt).tick
    ∧ (dmtProtoOf e1 ph1 t1 block dependency address salt).prv.hash
        = (dmtProtoOf e2 ph2 t2 block dependency address salt).prv.hash := by
  have hc : dmtCanonical (dmtProto0 t1 block dependency address salt)
      = dmtCanonical (dmtProto0 t2 block dependency address salt) := by
    simp only [dmtCanonical, dmtProto0]
    rw [hcase]
  have hdig : dmtDigest t1 block dependency address salt
      = dmtDigest t2 block dependency address salt := by
    unfold dmtDigest
    rw [hc]
  refine ⟨?_, hdig, hcase, ?_⟩
  · rw [dmtCanonical_assembled, dmtCanonical_assembled]
    exact hc
  · show Json.str (hexEncode (dmtDigest t1 block dependency address salt))
        = Json.str (hexEncode (dmtDigest t2 block dependency address salt))
    rw [hdig]

/-- Witness for C5: the case-normalization theorem applied to the tickers
`"NAT"` and `"nat"` with concrete fields. -/
theorem C5_dmt_case_normalization_witness :
    dmtCanonical (dmtProtoOf toyEngine "01" "NAT" (Json.num "190002") "depi0" "addr" (Json.str "s"))
        = dmtCanonical (dmtProtoOf toyEngine "01" "nat" (Json.num "190002") "depi0" "addr" (Json.str "s"))
    ∧ dmtDigest "NAT" (Json.num "190002") "depi0" "addr" (Json.str "s")
        = dmtDigest "nat" (Json.num "190002") "depi0" "addr" (Json.str "s")
    ∧ (dmtProtoOf toyEngine "01" "NAT" (Json.num "190002") "depi0" "addr" (Json.str "s")).tick
        = (dmtProtoOf toyEngine "01" "nat" (Json.num "190002") "depi0" "addr" (Json.str "s")).tick
    ∧ (dmtProtoOf toyEngine "01" "NAT" (Json.num "190002") "depi0" "addr" (Json.str "s")).prv.hash
        = (dmtProtoOf toyEngine "01" "nat" (Json.num "190002") "depi0" "addr" (Json.str "s")).prv.hash :=
  C5_dmt_case_normalization "NAT" "nat" (by decide) toyEngine toyEngine "01" "01"
    (Json.num "190002") "depi0" "addr" (Json.str "s")

/-- C6: for each op kind the canonical string and the digest stored on the op
are functions of the fields and salt only: they are identical across runs
with different engines and different signing keys, so no nondeterminism from
the signing step or its nonce can reach the digest. -/
theorem C6_digest_determinism (e1 e2 : EcEngine) (ph1 ph2 privKeyHex messageKey : String)
    (message : Json) (ticker : String) (amount : Json) (address : String)
    (dticker : String) (block : Json) (dependency daddress : String)
    (authorityId contentHash collection : String) (sequence : Json) (vaddress : String)
    (salt : Json) (e : EcEngine) :
    ((authProtoOf e1 ph1 messageKey message salt).hash = (authProtoOf e2 ph2 messageKey message salt).hash
      ∧ (authProtoOf e privKeyHex messageKey message salt).hash = .str (hexEncode (authDigest message salt)))
    ∧ (mintCanonical (mintProtoOf e1 ph1 ticker amount address salt)
          = mintCanonical (mintProtoOf e2 ph2 ticker amount address salt)
      ∧ (mintProtoOf e1 ph1 ticker amount address salt).prv.hash
          = (mintProtoOf e2 ph2 ticker amount address salt).prv.hash
      ∧ (mintProtoOf e privKeyHex ticker amount address salt).prv.hash
          = .str (hexEncode (mintDigest ticker amount address salt)))
    ∧ (dmtCanonical (dmtProtoOf e1 ph1 dticker block dependency daddress salt)
          = dmtCanonical (dmtProtoOf e2 ph2 dticker block dependency daddress salt)
      ∧ (dmtProtoOf e1 ph1 dticker block dependency daddress salt).prv.hash
          = (dmtProtoOf e2 ph2 dticker block dependency daddress salt).prv.hash
      ∧ (dmtProtoOf e privKeyHex dticker block dependency daddress salt).prv.hash
          = .str (hexEncode (dmtDigest dticker block dependency daddress salt)))
    ∧ (verifCanonical (verifProtoOf e1 ph1 authorityId contentHash collection sequence vaddress salt)
          = verifCanonical (verifProtoOf e2 ph2 authorityId contentHash collection sequence vaddress salt)
      ∧ (verifProtoOf e1 ph1 authorityId contentHash collection sequence vaddress salt).hash
          = (verifProtoOf e2 ph2 authorityId contentHash collection sequence vaddress salt).hash
      ∧ (verifProtoOf e privKeyHex authorityId contentHash collection sequence vaddress salt).hash
          = .str (hexEncode (verifDigest authorityId contentHash collection sequence vaddress salt))) :=
  ⟨⟨rfl, rfl⟩, ⟨rfl, rfl, rfl⟩, ⟨rfl, rfl, rfl⟩, ⟨rfl, rfl, rfl⟩⟩

/-- C7 (amended): every op emitted by `signMint`, `signDmtMint` and
`signVerification`, and every op emitted by `signAuth` whose `messageKey` is
neither `"p"` nor `"op"`, carries `p == "tap"` and an `op` tag from the fixed
set — `"token-mint"`, `"dmt-mint"`, or `"privilege-auth"` (the latter shared
by `signAuth` and `signVerification`) — and embeds the signature and digest
at the position fixed by the kind: top-level `sig`/`hash` for `signAuth` and
`signVerification`, nested under `prv` for the two mints.  A `signAuth` call
with `messageKey = "p"` or `"op"` overwrites the marker instead (see the
counterexample). -/
theorem C7_protocol_markers_amended (e : EcEngine) (privKeyHex messageKey : String)
    (hmk1 : messageKey ≠ "p") (hmk2 : messageKey ≠ "op") (message saltA : Json)
    (ticker : String) (amount : Json) (address : String) (saltM : Json)
    (dticker : String) (block : Json) (dependency daddress : String) (saltD : Json)
    (authorityId contentHash collection : String) (sequence : Json) (vaddress : String) (saltV : Json) :
    (getKey (authProtoOf e privKeyHex messageKey message saltA) "p" = .str "tap"
      ∧ getKey (authProtoOf e privKeyHex messageKey message saltA) "op" = .str "privilege-auth"
      ∧ (authProtoOf e privKeyHex messageKey message saltA).sig
          = sigToJson (e.sign (authDigest message saltA) (hexDecode privKeyHex))
      ∧ (authProtoOf e privKeyHex messageKey message saltA).hash
          = .str (hexEncode (authDigest message saltA)))
    ∧ ((mintProtoOf e privKeyHex ticker amount address saltM).p = "tap"
      ∧ (mintProtoOf e privKeyHex ticker amount address saltM).op = "token-mint"
      ∧ (mintProtoOf e privKeyHex ticker amount address saltM).prv.sig
          = sigToJson (e.sign (mintDigest ticker amount address saltM) (hexDecode privKeyHex))
      ∧ (mintProtoOf e privKeyHex ticker amount address saltM).prv.hash
          = .str (hexEncode (mintDigest ticker amount address saltM)))
    ∧ ((dmtProtoOf e privKeyHex dticker block dependency daddress saltD).p = "tap"
      ∧ (dmtProtoOf e privKeyHex dticker block dependency daddress saltD).op = "dmt-mint"
      ∧ (dmtProtoOf e privKeyHex dticker block dependency daddress saltD).prv.sig
          = sigToJson (e.sign (dmtDigest dticker block dependency daddress saltD) (hexDecode privKeyHex))
      ∧ (dmtProtoOf e privKeyHex dticker block dependency daddress saltD).prv.hash
          = .str (hexEncode (dmtDigest dticker block dependency daddress saltD)))
    ∧ ((verifProtoOf e privKeyHex authorityId contentHash collection sequence vaddress saltV).p = "tap"
      ∧ (verifProtoOf e privKeyHex authorityId contentHash collection sequence vaddress saltV).op = "privilege-auth"
      ∧ (verifProtoOf e privKeyHex authorityId contentHash collection sequence vaddress saltV).sig
          = sigToJson (e.sign (verifDigest authorityId contentHash collection sequence vaddress saltV) (hexDecode privKeyHex))
      ∧ (verifProtoOf e privKeyHex authorityId contentHash collection sequence vaddress saltV).hash
          = .str (hexEncode (verifDigest authorityId contentHash collection sequence vaddress saltV))) := by
  refine ⟨⟨?_, ?_, rfl, rfl⟩, ⟨rfl, rfl, rfl, rfl⟩, ⟨rfl, rfl, rfl, rfl⟩, ⟨rfl, rfl, rfl, rfl⟩⟩
  · show (setKey (authProto0 saltA) messageKey message).p = Json.str "tap"
    rw [setKey_p_ne _ _ _ hmk1]
    rfl
  · show (setKey (authProto0 saltA) messageKey message).op = Json.str "privilege-auth"
    rw [setKey_op_ne _ _ _ hmk2]
    rfl

/-- Witness for C7: the amended marker theorem applied to the toy engine with
the non-reserved message key `"auth"` and concrete fields. -/
theorem C7_protocol_markers_amended_witness :
    (getKey (authProtoOf toyEngine "01" "auth" (Json.str "m") (Json.str "1")) "p" = .str "tap"
      ∧ getKey (authProtoOf toyEngine "01" "auth" (Json.str "m") (Json.str "1")) "op" = .str "privilege-auth"
      ∧ (authProtoOf toyEngine "01" "auth" (Json.str "m") (Json.str "1")).sig
          = sigToJson (toyEngine.sign (authDigest (Json.str "m") (Json.str "1")) (hexDecode "01"))
      ∧ (authProtoOf toyEngine "01" "auth" (Json.str "m") (Json.str "1")).hash
          = .str (hexEncode (authDigest (Json.str "m") (Json.str "1"))))
    ∧ ((mintProtoOf toyEngine "01" "tok" (Json.num "5") "addr" (Json.str "1")).p = "tap"
      ∧ (mintProtoOf toyEngine "01" "tok" (Json.num "5") "addr" (Json.str "1")).op = "token-mint"
      ∧ (mintProtoOf toyEngine "01" "tok" (Json.num "5") "addr" (Json.str "1")).prv.sig
          = sigToJson (toyEngine.sign (mintDigest "tok" (Json.num "5") "addr" (Json.str "1")) (hexDecode "01"))
      ∧ (mintProtoOf toyEngine "01" "tok" (Json.num "5") "addr" (Json.str "1")).prv.hash
          = .str (hexEncode (mintDigest "tok" (Json.num "5") "addr" (Json.str "1"))))
    ∧ ((dmtProtoOf toyEngine "01" "NAT" (Json.num "2") "dep" "addr" (Json.str "1")).p = "tap"
      ∧ (dmtProtoOf toyEngine "01" "NAT" (Json.num "2") "dep" "addr" (Json.str "1")).op = "dmt-mint"
      ∧ (dmtProtoOf toyEngine "01" "NAT" (Json.num "2") "dep" "addr" (Json.str "1")).prv.sig
          = sigToJson (toyEngine.sign (dmtDigest "NAT" (Json.num "2") "dep" "addr" (Json.str "1")) (hexDecode "01"))
      ∧ (dmtProtoOf toyEngine "01" "NAT" (Json.num "2") "dep" "addr" (Json.str "1")).prv.hash
          = .str (hexEncode (dmtDigest "NAT" (Json.num "2") "dep" "addr" (Json.str "1"))))
    ∧ ((verifProtoOf toyEngine "01" "aid" "ch" "col" (Json.num "0") "addr" (Json.str "1")).p = "tap"
      ∧ (verifProtoOf toyEngine "01" "aid" "ch" "col" (Json.num "0") "addr" (Json.str "1")).op = "privilege-auth"
      ∧ (verifProtoOf toyEngine "01" "aid" "ch" "col" (Json.num "0") "addr" (Json.str "1")).sig
          = sigToJson (toyEngine.sign (verifDigest "aid" "ch" "col" (Json.num "0") "addr" (Json.str "1")) (hexDecode "01"))
      ∧ (verifProtoOf toyEngine "01" "aid" "ch" "col" (Json.num "0") "addr" (Json.str "1")).hash
          = .str (hexEncode (verifDigest "aid" "ch" "col" (Json.num "0") "addr" (Json.str "1")))) :=
  C7_protocol_markers_amended toyEngine "01" "auth" (by decide) (by decide)
    (Json.str "m") (Json.str "1") "tok" (Json.num "5") "addr" (Json.str "1")
    "NAT" (Json.num "2") "dep" "addr" (Json.str "1")
    "aid" "ch" "col" (Json.num "0") "addr" (Json.str "1")

/-- Counterexample to C7 as stated: the op emitted by a `signAuth` call with
`messageKey = "p"` carries `p == "x"`, not the protocol marker `"tap"`. -/
theorem C7_protocol_markers_counterexample :
    getKey (authProtoOf toyEngine "01" "p" (Json.str "x") (Json.str "1")) "p" = Json.str "x"
    ∧ Json.str "x" ≠ Json.str "tap" :=
  ⟨rfl, by decide⟩

/-- C8 (amended): `signAuth` stores the message under the caller-supplied
`messageKey` after the protocol fields are set.  For every `messageKey`
outside the reserved set the emitted op retains `p == "tap"`,
`op == "privilege-auth"`, the stringified salt, and the message itself.  A
call with `messageKey = "salt"` overwrites the salt field with the message;
whenever the message's **string coercion** (`'' + message`, not
`JSON.stringify(message)` as the claim put it) differs from the original salt
string, the re-derived preimage differs from the signed preimage — and at the
concrete example the re-derived digest differs and the record reports
`valid == false`. -/
theorem C8_messageKey_amended (e : EcEngine) (privKeyHex : String) :
    (∀ messageKey : String, messageKey ≠ "p" → messageKey ≠ "op" → messageKey ≠ "sig" →
        messageKey ≠ "hash" → messageKey ≠ "salt" → ∀ message salt : Json,
        getKey (authProtoOf e privKeyHex messageKey message salt) "p" = .str "tap"
        ∧ getKey (authProtoOf e privKeyHex messageKey message salt) "op" = .str "privilege-auth"
        ∧ (authProtoOf e privKeyHex messageKey message salt).salt = .str (jsToString salt)
        ∧ getKey (authProtoOf e privKeyHex messageKey message salt) messageKey = message)
    ∧ (∀ message salt : Json,
        (authProtoOf e privKeyHex "salt" message salt).salt = message
        ∧ (jsToString message ≠ jsToString salt →
            stringify (getKey (authProtoOf e privKeyHex "salt" message salt) "salt")
                ++ jsToString (authProtoOf e privKeyHex "salt" message salt).salt
              ≠ stringify message ++ jsToString (authProto0 salt).salt))
    ∧ (authTestDigest (authProtoOf toyEngine "01" "salt" (Json.str "y") (Json.num "0.25")) "salt"
          ≠ authDigest (Json.str "y") (Json.num "0.25")
        ∧ (signAuth toyEngine "01" "01" "salt" (Json.str "y") (Json.num "0.25")).test.valid = false) := by
  refine ⟨?_, ?_, by decide, by decide⟩
  · intro mk h1 h2 h3 h4 h5 message salt
    refine ⟨?_, ?_, ?_, authProtoOf_getKey_self e privKeyHex mk message salt h3 h4 h5⟩
    · show (setKey (authProto0 salt) mk message).p = Json.str "tap"
      rw [setKey_p_ne _ _ _ h1]
      rfl
    · show (setKey (authProto0 salt) mk message).op = Json.str "privilege-auth"
      rw [setKey_op_ne _ _ _ h2]
      rfl
    · rw [authProtoOf_salt e privKeyHex mk message salt h5]
      rfl
  · intro message salt
    refine ⟨rfl, ?_⟩
    intro hne heq
    apply hne
    have heq2 : stringify message ++ jsToString message
        = stringify message ++ jsToString salt := heq
    exact string_append_inj_right _ heq2

/-- Witness for C8: the amended theorem applied to the non-reserved key
`"auth"` and, for the reserved branch, to `messageKey = "salt"` with the
message `"y"` and the salt `0.25`, whose string coercions differ. -/
theorem C8_messageKey_amended_witness :
    (getKey (authProtoOf toyEngine "01" "auth" (Json.str "w") (Json.str "2")) "p" = .str "tap"
      ∧ getKey (authProtoOf toyEngine "01" "auth" (Json.str "w") (Json.str "2")) "op" = .str "privilege-auth"
      ∧ (authProtoOf toyEngine "01" "auth" (Json.str "w") (Json.str "2")).salt = .str (jsToString (Json.str "2"))
      ∧ getKey (authProtoOf toyEngine "01" "auth" (Json.str "w") (Json.str "2")) "auth" = Json.str "w")
    ∧ (authProtoOf toyEngine "01" "salt" (Json.str "y") (Json.num "0.25")).salt = Json.str "y"
    ∧ stringify (getKey (authProtoOf toyEngine "01" "salt" (Json.str "y") (Json.num "0.25")) "salt")
          ++ jsToString (authProtoOf toyEngine "01" "salt" (Json.str "y") (Json.num "0.25")).salt
        ≠ stringify (Json.str "y") ++ jsToString (authProto0 (Json.num "0.25")).salt := by
  have h := C8_messageKey_amended toyEngine "01"
  exact ⟨h.1 "auth" (by decide) (by decide) (by decide) (by decide) (by decide) (Json.str "w") (Json.str "2"),
    (h.2.1 (Json.str "y") (Json.num "0.25")).1,
    (h.2.1 (Json.str "y") (Json.num "0.25")).2 (by decide)⟩

/-- Counterexample to C8 as stated: the claim's condition is wrong.  With
`messageKey = "salt"`, `message = "0.5"` (a string) and `salt = 0.5` (a
number), `JSON.stringify(message)` differs from the salt string, yet the
string coercions coincide, the re-derived digest equals the signed one, and
the record reports `valid == true`, not `false`. -/
theorem C8_messageKey_counterexample :
    stringify (Json.str "0.5") ≠ jsToString (Json.num "0.5")
    ∧ EcSound toyEngine
    ∧ authTestDigest (authProtoOf toyEngine "01" "salt" (Json.str "0.5") (Json.num "0.5")) "salt"
        = authDigest (Json.str "0.5") (Json.num "0.5")
    ∧ (signAuth toyEngine "01" "01" "salt" (Json.str "0.5") (Json.num "0.5")).test.valid = true :=
  ⟨by decide, toySound, by decide, by decide⟩

/-- C9: in every builder the emitted `hash` field is the lowercase hex
encoding of the exact 32-byte SHA-256 digest that was signed, and the emitted
`sig` object stores `v`, `r`, `s` as the decimal string renderings of the
recovery id and the signature integers.  The trailing conjuncts pin down the
encodings: digests are 32 bytes, hex encodings are two lowercase hex digits
per byte, and the decimal renderings parse back to the rendered numbers. -/
theorem C9_hash_sig_encoding (e : EcEngine) (privKeyHex messageKey : String) (message : Json)
    (ticker : String) (amount : Json) (address : String) (dticker : String) (block : Json)
    (dependency daddress : String) (authorityId contentHash collection : String) (sequence : Json)
    (vaddress : String) (salt : Json) :
    ((authProtoOf e privKeyHex messageKey message salt).hash
          = .str (hexEncode (authDigest message salt))
      ∧ (authProtoOf e privKeyHex messageKey message salt).sig
          = sigToJson (e.sign (authDigest message salt) (hexDecode privKeyHex)))
    ∧ ((mintProtoOf e privKeyHex ticker amount address salt).prv.hash
          = .str (hexEncode (mintDigest ticker amount address salt))
      ∧ (mintProtoOf e privKeyHex ticker amount address salt).prv.sig
          = sigToJson (e.sign (mintDigest ticker amount address salt) (hexDecode privKeyHex)))
    ∧ ((dmtProtoOf e privKeyHex dticker block dependency daddress salt).prv.hash
          = .str (hexEncode (dmtDigest dticker block dependency daddress salt))
      ∧ (dmtProtoOf e privKeyHex dticker block dependency daddress salt).prv.sig
          = sigToJson (e.sign (dmtDigest dticker block dependency daddress salt) (hexDecode privKeyHex)))
    ∧ ((verifProtoOf e privKeyHex authorityId contentHash collection sequence vaddress salt).hash
          = .str (hexEncode (verifDigest authorityId contentHash collection sequence vaddress salt))
      ∧ (verifProtoOf e privKeyHex authorityId contentHash collection sequence vaddress salt).sig
          = sigToJson (e.sign (verifDigest authorityId contentHash collection sequence vaddress salt) (hexDecode privKeyHex)))
    ∧ (∀ s : String, (sha256 s).length = 32)
    ∧ (∀ bs : List Nat, (hexEncode bs).length = 2 * bs.length)
    ∧ (∀ bs : List Nat, ∀ c ∈ (hexEncode bs).data, c ∈ "0123456789abcdef".data)
    ∧ (∀ sig : Signature, sigToJson sig
        = .obj (objOf [("v", .str (natDec sig.recovery)), ("r", .str (natDec sig.r)), ("s", .str (natDec sig.s))]))
    ∧ (∀ n : Nat, parseDec (natDec n) = n) :=
  ⟨⟨rfl, rfl⟩, ⟨rfl, rfl⟩, ⟨rfl, rfl⟩, ⟨rfl, rfl⟩,
    sha256_length, hexEncode_length, hexEncode_lower_hex, fun _ => rfl, parseDec_natDec⟩

/-- C10: every builder coerces the salt to a string before folding it into
the canonical bytes and before storing it; two calls that differ only in the
salt's representation but agree on its string coercion produce identical
complete results (canonical bytes, digests, emitted salt fields, signatures
and serialized text). -/
theorem C10_salt_coercion (s1 s2 : Json) (hs : jsToString s1 = jsToString s2)
    (e : EcEngine) (privKeyHex pubKeyHex messageKey : String) (message : Json)
    (ticker : String) (amount : Json) (address : String)
    (dticker : String) (block : Json) (dependency daddress : String)
    (authorityId contentHash collection : String) (sequence : Json) (vaddress : String) :
    signAuth e privKeyHex pubKeyHex messageKey message s1
        = signAuth e privKeyHex pubKeyHex messageKey message s2
    ∧ signMint e privKeyHex pubKeyHex ticker amount address s1
        = signMint e privKeyHex pubKeyHex ticker amount address s2
    ∧ signDmtMint e privKeyHex pubKeyHex dticker block dependency daddress s1
        = signDmtMint e privKeyHex pubKeyHex dticker block dependency daddress s2
    ∧ signVerification e privKeyHex pubKeyHex authorityId contentHash collection sequence vaddress s1
        = signVerification e privKeyHex pubKeyHex authorityId contentHash collection sequence vaddress s2
    ∧ (mintProtoOf e privKeyHex ticker amount address s1).prv.salt = jsToString s1
    ∧ (authProto0 s1).salt = .str (jsToString s1) := by
  have h0 : authProto0 s1 = authProto0 s2 := by
    unfold authProto0; rw [hs]
  have had : authDigest message s1 = authDigest message s2 := by
    unfold authDigest; rw [h0]
  have hap : authProtoOf e privKeyHex messageKey message s1
      = authProtoOf e privKeyHex messageKey message s2 := by
    simp only [authProtoOf]; rw [h0, had]
  have hm0 : mintProto0 ticker amount address s1 = mintProto0 ticker amount address s2 := by
    unfold mintProto0; rw [hs]
  have hmd : mintDigest ticker amount address s1 = mintDigest ticker amount address s2 := by
    unfold mintDigest; rw [hm0]
  have hmp : mintProtoOf e privKeyHex ticker amount address s1
      = mintProtoOf e privKeyHex ticker amount address s2 := by
    simp only [mintProtoOf]; rw [hm0, hmd]
  have hd0 : dmtProto0 dticker block dependency daddress s1
      = dmtProto0 dticker block dependency daddress s2 := by
    unfold dmtProto0; rw [hs]
  have hdd : dmtDigest dticker block dependency daddress s1
      = dmtDigest dticker block dependency daddress s2 := by
    unfold dmtDigest; rw [hd0]
  have hdp : dmtProtoOf e privKeyHex dticker block dependency daddress s1
      = dmtProtoOf e privKeyHex dticker block dependency daddress s2 := by
    simp only [dmtProtoOf]; rw [hd0, hdd]
  have hv0 : verifProto0 authorityId contentHash collection sequence vaddress s1
      = verifProto0 authorityId contentHash collection sequence vaddress s2 := by
    unfold verifProto0; rw [hs]
  have hvd : verifDigest authorityId contentHash collection sequence vaddress s1
      = verifDigest authorityId contentHash collection sequence vaddress s2 := by
    unfold verifDigest; rw [hv0]
  have hvp : verifProtoOf e privKeyHex authorityId contentHash collection sequence vaddress s1
      = verifProtoOf e privKeyHex authorityId contentHash collection sequence vaddress s2 := by
    simp only [verifProtoOf]; rw [hv0, hvd]
  refine ⟨?_, ?_, ?_, ?_, rfl, rfl⟩
  · simp only [signAuth]; rw [hap, had]
  · simp only [signMint]; rw [hmp, hmd]
  · simp only [signDmtMint]; rw [hdp, hdd]
  · simp only [signVerification]; rw [hvp, hvd]

/-- Witness for C10: the salt-coercion theorem applied to the number `0.123`
and the string `"0.123"`, whose string coercions coincide. -/
theorem C10_salt_coercion_witness :
    signAuth toyEngine "01" "01" "auth" (Json.str "m") (Json.num "0.123")
        = signAuth toyEngine "01" "01" "auth" (Json.str "m") (Json.str "0.123")
    ∧ signMint toyEngine "01" "01" "tok" (Json.num "5") "addr" (Json.num "0.123")
        = signMint toyEngine "01" "01" "tok" (Json.num "5") "addr" (Json.str "0.123")
    ∧ signDmtMint toyEngine "01" "01" "NAT" (Json.num "2") "dep" "addr" (Json.num "0.123")
        = signDmtMint toyEngine "01" "01" "NAT" (Json.num "2") "dep" "addr" (Json.str "0.123")
    ∧ signVerification toyEngine "01" "01" "aid" "ch" "col" (Json.num "0") "addr" (Json.num "0.123")
        = signVerification toyEngine "01" "01" "aid" "ch" "col" (Json.num "0") "addr" (Json.str "0.123")
    ∧ (mintProtoOf toyEngine "01" "tok" (Json.num "5") "addr" (Json.num "0.123")).prv.salt
        = jsToString (Json.num "0.123")
    ∧ (authProto0 (Json.num "0.123")).salt = .str (jsToString (Json.num "0.123")) :=
  C10_salt_coercion (Json.num "0.123") (Json.str "0.123") rfl toyEngine "01" "01" "auth"
    (Json.str "m") "tok" (Json.num "5") "addr" "NAT" (Json.num "2") "dep" "addr"
    "aid" "ch" "col" (Json.num "0") "addr"
